import Mathlib

/-!
Verification development for the talos terminal adapter core
(`terminal_adapter/domain/classifier.py`, `session_manager.py`,
`pty_executor.py`, `terminal_adapter/main.py`).

The Python source is shallowly embedded: pure functions become Lean
functions, mutation becomes explicit state passing, fallible I/O becomes
`Except`/outcome flags, machine-level hashing (`hashlib.sha256`) is
implemented executably over `Nat` words reduced mod 2^32, and Python's
`re` patterns are transcribed into a small executable regex AST with
`re.search` semantics.
-/

set_option maxRecDepth 40000

namespace TerminalAdapter

/-! ## SHA-256 (executable embedding of `hashlib.sha256(...).hexdigest()`)

Words are `Nat` values kept below 2^32 by explicit `% 4294967296`.
Input is the UTF-8 byte sequence of the hashed string, matching
Python's `str.encode()`. -/

def w32 : Nat := 4294967296

def rotr32 (n x : Nat) : Nat :=
  ((x >>> n) ||| (x <<< (32 - n))) % w32

def shaCh (x y z : Nat) : Nat :=
  ((x &&& y) ^^^ ((x ^^^ 4294967295) &&& z)) % w32

def shaMaj (x y z : Nat) : Nat :=
  ((x &&& y) ^^^ (x &&& z) ^^^ (y &&& z)) % w32

def bigSigma0 (x : Nat) : Nat := (rotr32 2 x) ^^^ (rotr32 13 x) ^^^ (rotr32 22 x)

def bigSigma1 (x : Nat) : Nat := (rotr32 6 x) ^^^ (rotr32 11 x) ^^^ (rotr32 25 x)

def smallSigma0 (x : Nat) : Nat := (rotr32 7 x) ^^^ (rotr32 18 x) ^^^ (x >>> 3)

def smallSigma1 (x : Nat) : Nat := (rotr32 17 x) ^^^ (rotr32 19 x) ^^^ (x >>> 10)

/-- The 64 SHA-256 round constants (FIPS 180-4), in decimal. -/
def shaK : List Nat :=
  [1116352408, 1899447441, 3049323471, 3921009573, 961987163,
   1508970993, 2453635748, 2870763221, 3624381080, 310598401,
   607225278, 1426881987, 1925078388, 2162078206, 2614888103,
   3248222580, 3835390401, 4022224774, 264347078, 604807628,
   770255983, 1249150122, 1555081692, 1996064986, 2554220882,
   2821834349, 2952996808, 3210313671, 3336571891, 3584528711,
   113926993, 338241895, 666307205, 773529912, 1294757372,
   1396182291, 1695183700, 1986661051, 2177026350, 2456956037,
   2730485921, 2820302411, 3259730800, 3345764771, 3516065817,
   3600352804, 4094571909, 275423344, 430227734, 506948616,
   659060556, 883997877, 958139571, 1322822218, 1537002063,
   1747873779, 1955562222, 2024104815, 2227730452, 2361852424,
   2428436474, 2756734187, 3204031479, 3329325298]

/-- The initial SHA-256 state (FIPS 180-4), in decimal. -/
def shaH0 : List Nat :=
  [1779033703, 3144134277, 1013904242, 2773480762,
   1359893119, 2600822924, 528734635, 1541459225]

/-- Group a big-endian byte list into 32-bit words (4 bytes per word). -/
def bytesToWords : List Nat → List Nat
  | a :: b :: c :: d :: rest =>
      (a * 16777216 + b * 65536 + c * 256 + d) :: bytesToWords rest
  | _ => []

/-- Extend a 16-word block to the 64-word message schedule
(`k` = number of words still to generate). -/
def shaSchedule : Nat → List Nat → List Nat
  | 0, ws => ws
  | k + 1, ws =>
      let n := ws.length
      let w := (smallSigma1 (ws.getD (n - 2) 0) + ws.getD (n - 7) 0 +
                smallSigma0 (ws.getD (n - 15) 0) + ws.getD (n - 16) 0) % w32
      shaSchedule k (ws ++ [w])

/-- One compression round: state is the 8-word working list [a,b,c,d,e,f,g,h]. -/
def shaRound (st : List Nat) (kw : Nat × Nat) : List Nat :=
  match st with
  | [a, b, c, d, e, f, g, h] =>
      let t1 := (h + bigSigma1 e + shaCh e f g + kw.1 + kw.2) % w32
      let t2 := (bigSigma0 a + shaMaj a b c) % w32
      [(t1 + t2) % w32, a, b, c, (d + t1) % w32, e, f, g]
  | other => other

def shaCompress (h : List Nat) (block : List Nat) : List Nat :=
  let ws := shaSchedule 48 block
  let fin := (List.zip shaK ws).foldl shaRound h
  (List.zip h fin).map fun p => (p.1 + p.2) % w32

/-- Big-endian 8-byte encoding of a length value. -/
def be64 (n : Nat) : List Nat :=
  [(n >>> 56) % 256, (n >>> 48) % 256, (n >>> 40) % 256, (n >>> 32) % 256,
   (n >>> 24) % 256, (n >>> 16) % 256, (n >>> 8) % 256, n % 256]

/-- SHA-256 padding: append 0x80, zero-fill to 56 mod 64, then the
64-bit big-endian bit length. -/
def shaPad (msg : List Nat) : List Nat :=
  let len := msg.length
  let zeros := (119 - len % 64) % 64
  msg ++ [128] ++ List.replicate zeros 0 ++ be64 (len * 8)

def chunkWords : Nat → List Nat → List (List Nat)
  | 0, _ => []
  | _, [] => []
  | fuel + 1, ws => ws.take 16 :: chunkWords fuel (ws.drop 16)

def shaDigestWords (bytes : List Nat) : List Nat :=
  let blocks := chunkWords (shaPad bytes).length (bytesToWords (shaPad bytes))
  blocks.foldl shaCompress shaH0

def hexDigits : List Char := "0123456789abcdef".data

def word32ToHex (x : Nat) : List Char :=
  [hexDigits.getD ((x >>> 28) % 16) '0', hexDigits.getD ((x >>> 24) % 16) '0',
   hexDigits.getD ((x >>> 20) % 16) '0', hexDigits.getD ((x >>> 16) % 16) '0',
   hexDigits.getD ((x >>> 12) % 16) '0', hexDigits.getD ((x >>> 8) % 16) '0',
   hexDigits.getD ((x >>> 4) % 16) '0', hexDigits.getD (x % 16) '0']

/-- UTF-8 encoding of one scalar value, as `str.encode()` produces. -/
def utf8Bytes (n : Nat) : List Nat :=
  if n < 128 then [n]
  else if n < 2048 then [192 + n / 64, 128 + n % 64]
  else if n < 65536 then [224 + n / 4096, 128 + (n / 64) % 64, 128 + n % 64]
  else [240 + n / 262144, 128 + (n / 4096) % 64, 128 + (n / 64) % 64, 128 + n % 64]

def strBytes (s : String) : List Nat :=
  s.data.flatMap fun c => utf8Bytes c.toNat

/-- `hashlib.sha256(s.encode()).hexdigest()`. -/
def sha256hex (s : String) : String :=
  ⟨(shaDigestWords (strBytes s)).flatMap word32ToHex⟩

/-! ## Regex engine (Python `re.search` semantics for the source's patterns)

The source compiles fixed pattern strings with `re.compile` and tests them
with `.search`. Each pattern is transcribed into the `RE` AST below;
`^`-anchored patterns are marked `anchored` and are tried at position 0
only, unanchored patterns at every position, which is `re.search`.
Character classes are restricted to the ASCII range, which covers every
character the patterns themselves mention. -/

/-- Python's `\s` on the ASCII/Latin-1 range: space, TAB, LF, VT, FF, CR
plus the FS/GS/RS/US separators, NEL and NBSP that `str.isspace` accepts. -/
def isPySpace (c : Char) : Bool :=
  c.toNat = 32 ∨ (9 ≤ c.toNat ∧ c.toNat ≤ 13) ∨ (28 ≤ c.toNat ∧ c.toNat ≤ 31) ∨
  c.toNat = 133 ∨ c.toNat = 160

/-- Python's `\w` on the ASCII range: letters, digits, underscore. -/
def isWordChar (c : Char) : Bool :=
  c.isAlphanum ∨ c = '_'

/-- Regex AST covering the constructs used by the source's patterns.
`grp r` is a capturing group `(r)`; it does not affect matching. -/
inductive RE where
  | eps : RE
  | ch : Char → RE
  | dot : RE
  | space : RE
  | cat : RE → RE → RE
  | alt : RE → RE → RE
  | star : RE → RE
  | wordB : RE
  | eol : RE
deriving Repr

/-- Zero-width `\b`: exactly one neighbour is a word character. -/
def atWordBoundary (prev : Option Char) (rest : List Char) : Bool :=
  let l := match prev with | none => false | some c => isWordChar c
  let r := match rest with | [] => false | c :: _ => isWordChar c
  l ≠ r

/-- Iterated matching for `star`: zero or more repetitions of `step`,
each required to consume input (every starred sub-pattern in the source's
patterns consumes one character per iteration), so fuel = remaining
length + 1 never runs out first. Structural recursion on the fuel keeps
the whole engine kernel-reducible. -/
def starMatch (step : Option Char → List Char → List (Option Char × List Char)) :
    Nat → Option Char → List Char → List (Option Char × List Char)
  | 0, p, s => [(p, s)]
  | f + 1, p, s =>
      (p, s) :: ((step p s).flatMap fun q =>
        if q.2.length < s.length then starMatch step f q.1 q.2 else [])

/-- All ways a regex can match a prefix of `s`; each result is the pair
(character just before the remaining suffix, remaining suffix). -/
def reMatch : RE → Option Char → List Char → List (Option Char × List Char)
  | .eps, p, s => [(p, s)]
  | .ch _, _, [] => []
  | .ch c, _, x :: rest => if x = c then [(some x, rest)] else []
  | .dot, _, [] => []
  | .dot, _, x :: rest => if x = '\n' then [] else [(some x, rest)]
  | .space, _, [] => []
  | .space, _, x :: rest => if isPySpace x then [(some x, rest)] else []
  | .cat r1 r2, p, s =>
      (reMatch r1 p s).flatMap fun q => reMatch r2 q.1 q.2
  | .alt r1 r2, p, s => reMatch r1 p s ++ reMatch r2 p s
  | .star r, p, s => starMatch (reMatch r) (s.length + 1) p s
  | .wordB, p, s => if atWordBoundary p s then [(p, s)] else []
  | .eol, p, s => if s = [] ∨ s = ['\n'] then [(p, s)] else []

/-- Does the regex match starting at this exact position? -/
def reMatchHere (r : RE) (p : Option Char) (s : List Char) : Bool :=
  ¬ (reMatch r p s).isEmpty

/-- All (previous character, suffix) positions of a string. -/
def positions : Option Char → List Char → List (Option Char × List Char)
  | p, [] => [(p, [])]
  | p, x :: rest => (p, x :: rest) :: positions (some x) rest

/-- A compiled pattern: its source text, whether it is `^`-anchored,
and its AST. -/
structure Pattern where
  source : String
  anchored : Bool
  re : RE

/-- `re.search`: anchored patterns match only at position 0, unanchored
patterns at any position. -/
def reSearch (pat : Pattern) (s : List Char) : Bool :=
  if pat.anchored then reMatchHere pat.re none s
  else (positions none s).any fun q => reMatchHere pat.re q.1 q.2

/-- Literal character sequence. -/
def lits (s : String) : RE :=
  s.data.foldr (fun c acc => RE.cat (RE.ch c) acc) RE.eps

def wsStar : RE := RE.star RE.space

def wsPlus : RE := RE.cat RE.space wsStar

def dotStar : RE := RE.star RE.dot

/-! ## Classifier (`classifier.py`) -/

/-- `COMMAND_BLOCKLIST`, each regex transcribed. In the second pattern the
source's `()` is an empty capturing group (the parentheses are not
escaped), so it matches the empty string, and the braces are escaped
literals; its AST reflects that literally. -/
def COMMAND_BLOCKLIST : List Pattern :=
  [ -- "^rm\s+-rf\s+/"  (system-wide deletion)
    ⟨"^rm\\s+-rf\\s+/", true,
      .cat (lits "rm") (.cat wsPlus (.cat (lits "-rf") (.cat wsPlus (.ch '/'))))⟩,
    -- "^:()\{\s*:\s*\|\s*:\s*&\s*\}\s*;:"  (intended fork bomb)
    ⟨"^:()\\\x7b\\s*:\\s*\\|\\s*:\\s*&\\s*\\\x7d\\s*;:", true,
      .cat (.ch ':') (.cat .eps (.cat (.ch '\x7b')
        (.cat wsStar (.cat (.ch ':') (.cat wsStar (.cat (.ch '|')
        (.cat wsStar (.cat (.ch ':') (.cat wsStar (.cat (.ch '&')
        (.cat wsStar (.cat (.ch '\x7d') (.cat wsStar
        (.cat (.ch ';') (.ch ':')))))))))))))))⟩,
    -- "^dd\s+if=.*of=/"  (disk overwrite)
    ⟨"^dd\\s+if=.*of=/", true,
      .cat (lits "dd") (.cat wsPlus (.cat (lits "if=")
        (.cat dotStar (lits "of=/"))))⟩,
    -- ".*eval\s+\$"  (dynamic eval)
    ⟨".*eval\\s+\\$", false,
      .cat dotStar (.cat (lits "eval") (.cat wsPlus (.ch '$')))⟩,
    -- "^pkill\b"  (process kill)
    ⟨"^pkill\\b", true, .cat (lits "pkill") .wordB⟩,
    -- "^killall\b"  (process kill)
    ⟨"^killall\\b", true, .cat (lits "killall") .wordB⟩,
    -- ".*&&\s*rm\b"  (chained deletions)
    ⟨".*&&\\s*rm\\b", false,
      .cat dotStar (.cat (lits "&&") (.cat wsStar (.cat (lits "rm") .wordB)))⟩ ]

/-- `COMMAND_RISK_MAP["read"]`. -/
def READ_PATTERNS : List Pattern :=
  [ ⟨"^ls\\b", true, .cat (lits "ls") .wordB⟩,
    ⟨"^cat\\b", true, .cat (lits "cat") .wordB⟩,
    ⟨"^head\\b", true, .cat (lits "head") .wordB⟩,
    ⟨"^tail\\b", true, .cat (lits "tail") .wordB⟩,
    ⟨"^grep\\b", true, .cat (lits "grep") .wordB⟩,
    ⟨"^find\\b.*-type", true,
      .cat (lits "find") (.cat .wordB (.cat dotStar (lits "-type")))⟩,
    ⟨"^pwd$", true, .cat (lits "pwd") .eol⟩,
    ⟨"^which\\b", true, .cat (lits "which") .wordB⟩,
    ⟨"^echo\\b", true, .cat (lits "echo") .wordB⟩,
    ⟨"^git status\\b", true, .cat (lits "git status") .wordB⟩,
    ⟨"^git log\\b", true, .cat (lits "git log") .wordB⟩,
    ⟨"^git diff\\b", true, .cat (lits "git diff") .wordB⟩,
    ⟨"^wc\\b", true, .cat (lits "wc") .wordB⟩,
    ⟨"^file\\b", true, .cat (lits "file") .wordB⟩,
    ⟨"^tree\\b", true, .cat (lits "tree") .wordB⟩,
    ⟨"^less\\b", true, .cat (lits "less") .wordB⟩,
    ⟨"^more\\b", true, .cat (lits "more") .wordB⟩ ]

/-- `COMMAND_RISK_MAP["write"]`. -/
def WRITE_PATTERNS : List Pattern :=
  [ ⟨"^mkdir\\b", true, .cat (lits "mkdir") .wordB⟩,
    ⟨"^touch\\b", true, .cat (lits "touch") .wordB⟩,
    ⟨"^cp\\b", true, .cat (lits "cp") .wordB⟩,
    ⟨"^mv\\b", true, .cat (lits "mv") .wordB⟩,
    ⟨"^git add\\b", true, .cat (lits "git add") .wordB⟩,
    ⟨"^git commit\\b", true, .cat (lits "git commit") .wordB⟩,
    ⟨"^npm install\\b", true, .cat (lits "npm install") .wordB⟩,
    ⟨"^pip install\\b", true, .cat (lits "pip install") .wordB⟩,
    ⟨"^cargo build\\b", true, .cat (lits "cargo build") .wordB⟩,
    ⟨"^make\\b", true, .cat (lits "make") .wordB⟩,
    ⟨"^npm run\\b", true, .cat (lits "npm run") .wordB⟩,
    ⟨"^yarn\\b", true, .cat (lits "yarn") .wordB⟩,
    ⟨"^pnpm\\b", true, .cat (lits "pnpm") .wordB⟩ ]

/-- `COMMAND_RISK_MAP["high_risk"]`. -/
def HIGH_RISK_PATTERNS : List Pattern :=
  [ ⟨"^rm\\b", true, .cat (lits "rm") .wordB⟩,
    ⟨"^rmdir\\b", true, .cat (lits "rmdir") .wordB⟩,
    ⟨"^git push\\b", true, .cat (lits "git push") .wordB⟩,
    ⟨"^git reset --hard\\b", true, .cat (lits "git reset --hard") .wordB⟩,
    ⟨"^curl\\b", true, .cat (lits "curl") .wordB⟩,
    ⟨"^wget\\b", true, .cat (lits "wget") .wordB⟩,
    ⟨"^ssh\\b", true, .cat (lits "ssh") .wordB⟩,
    ⟨"^scp\\b", true, .cat (lits "scp") .wordB⟩,
    ⟨"^chmod\\b", true, .cat (lits "chmod") .wordB⟩,
    ⟨"^chown\\b", true, .cat (lits "chown") .wordB⟩,
    ⟨"^sudo\\b", true, .cat (lits "sudo") .wordB⟩,
    ⟨".*\\|.*rm\\b", false,
      .cat dotStar (.cat (.ch '|') (.cat dotStar (.cat (lits "rm") .wordB)))⟩,
    ⟨".*>.*", false, .cat dotStar (.cat (.ch '>') dotStar)⟩ ]

/-- First matching pattern of a list (the `for pattern in ...` loops),
returning its source text (`pattern.pattern`). -/
def findFirstMatch : List Pattern → List Char → Option String
  | [], _ => none
  | pat :: rest, s => if reSearch pat s then some pat.source else findFirstMatch rest s

inductive RiskLevel where
  | READ
  | WRITE
  | HIGH_RISK
deriving DecidableEq, Repr

/-- `RiskLevel.value` in the source (the enum's string payload). -/
def RiskLevel.value : RiskLevel → String
  | .READ => "READ"
  | .WRITE => "WRITE"
  | .HIGH_RISK => "HIGH_RISK"

/-- `RiskLevel(s)` enum construction; `none` models the `ValueError`. -/
def riskOfString (s : String) : Option RiskLevel :=
  if s = "READ" then some .READ
  else if s = "WRITE" then some .WRITE
  else if s = "HIGH_RISK" then some .HIGH_RISK
  else none

structure PolicyManifest where
  version : String
  safe_commands : List String
  write_commands : List String
  blocked_patterns : List String
  signature : String

structure ClassificationResult where
  command : String
  args : List String
  risk_level : RiskLevel
  is_blocked : Bool
  block_reason : Option String
  matched_pattern : Option String
deriving DecidableEq, Repr

/-- Python `str.strip()` on both ends. -/
def pyStrip (s : List Char) : List Char :=
  ((s.dropWhile isPySpace).reverse.dropWhile isPySpace).reverse

/-- `f"{command} {' '.join(args)}".strip()`. -/
def fullCommand (command : String) (args : List String) : List Char :=
  pyStrip (command.data ++ ' ' :: (String.intercalate " " args).data)

/-- `CommandClassifier.classify`. The compiled pattern tables are the
module-level constants; `manifest` and `paranoid_mode` are the
constructor arguments. -/
def classify (manifest : Option PolicyManifest) (paranoid_mode : Bool)
    (command : String) (args : List String) : ClassificationResult :=
  let full := fullCommand command args
  -- 1. blocklist first (always denied)
  match findFirstMatch COMMAND_BLOCKLIST full with
  | some pat =>
      ⟨command, args, .HIGH_RISK, true, some "Command matches blocklist pattern", some pat⟩
  | none =>
    -- 2. paranoid mode
    if paranoid_mode then
      ⟨command, args, .HIGH_RISK, false,
        some "Paranoid mode - Supervisor approval required", none⟩
    else
      -- 3. manifest-based classification (falls through when no membership)
      let manifestHit : Option ClassificationResult :=
        match manifest with
        | some m =>
            if command ∈ m.safe_commands then
              some ⟨command, args, .READ, false, none, none⟩
            else if command ∈ m.write_commands then
              some ⟨command, args, .WRITE, false, none, none⟩
            else none
        | none => none
      match manifestHit with
      | some r => r
      | none =>
        -- 4. fallback regex groups, read then write then high-risk
        match findFirstMatch READ_PATTERNS full with
        | some pat => ⟨command, args, .READ, false, none, some pat⟩
        | none =>
          match findFirstMatch WRITE_PATTERNS full with
          | some pat => ⟨command, args, .WRITE, false, none, some pat⟩
          | none =>
            match findFirstMatch HIGH_RISK_PATTERNS full with
            | some pat => ⟨command, args, .HIGH_RISK, false, none, some pat⟩
            | none =>
              -- 5. unknown commands default to HIGH_RISK
              ⟨command, args, .HIGH_RISK, false,
                some "Unknown command - defaulting to HIGH_RISK", none⟩

/-! ## TerminalAction and canonical hashing (`classifier.py`)

`timestamp` is modelled as the ISO-8601 string that
`datetime.isoformat()` yields: `compute_hash` serializes exactly that
string, the WAL stores it, and `datetime.fromisoformat` round-trips it. -/

structure TerminalAction where
  action_id : String
  session_id : String
  timestamp : String
  command : String
  args : List String
  cwd : String
  risk_level : RiskLevel
  exit_code : Option Int
  stdout_hash : String
  stderr_hash : String
deriving DecidableEq, Repr

/-- Hex digits of `n` padded to 4 places, for `\uXXXX` escapes. -/
def hex4 (n : Nat) : List Char :=
  [hexDigits.getD ((n >>> 12) % 16) '0', hexDigits.getD ((n >>> 8) % 16) '0',
   hexDigits.getD ((n >>> 4) % 16) '0', hexDigits.getD (n % 16) '0']

/-- `json.dumps` escaping of one character (default `ensure_ascii=True`):
quote and backslash escaped, the five short control escapes, other
control characters and every non-ASCII character as `\uXXXX`
(surrogate pairs above the BMP). -/
def jsonEscapeChar (c : Char) : List Char :=
  if c = '"' then ['\\', '"']
  else if c = '\\' then ['\\', '\\']
  else if c = '\n' then ['\\', 'n']
  else if c = '\t' then ['\\', 't']
  else if c = '\r' then ['\\', 'r']
  else if c.toNat = 8 then ['\\', 'b']
  else if c.toNat = 12 then ['\\', 'f']
  else if c.toNat < 32 then '\\' :: 'u' :: hex4 c.toNat
  else if c.toNat < 127 then [c]
  else if c.toNat < 65536 then '\\' :: 'u' :: hex4 c.toNat
  else
    let n := c.toNat - 65536
    ('\\' :: 'u' :: hex4 (55296 + n / 1024)) ++ ('\\' :: 'u' :: hex4 (56320 + n % 1024))

/-- A JSON string literal. -/
def jsonString (s : String) : String :=
  ⟨'"' :: s.data.flatMap jsonEscapeChar ++ ['"']⟩

/-- A JSON array of strings with `','` separators (the `args` list). -/
def jsonStringList (xs : List String) : String :=
  "[" ++ String.intercalate "," (xs.map jsonString) ++ "]"

def digitChar (n : Nat) : Char :=
  if n = 0 then '0' else if n = 1 then '1' else if n = 2 then '2'
  else if n = 3 then '3' else if n = 4 then '4' else if n = 5 then '5'
  else if n = 6 then '6' else if n = 7 then '7' else if n = 8 then '8' else '9'

/-- Decimal digits of `n` prepended to `acc`; structural recursion on
fuel (`fuel = n` always suffices since `n` has at most `n` digits). -/
def natStrGo : Nat → Nat → List Char → List Char
  | 0, n, acc => digitChar n :: acc
  | fuel + 1, n, acc =>
      if n < 10 then digitChar n :: acc
      else natStrGo fuel (n / 10) (digitChar (n % 10) :: acc)

def natStr (n : Nat) : String := ⟨natStrGo n n []⟩

/-- JSON rendering of an `int`. -/
def intStr : Int → String
  | .ofNat m => natStr m
  | .negSucc m => "-" ++ natStr (m + 1)

/-- JSON rendering of the optional `exit_code`: `null` or the integer. -/
def jsonOptInt : Option Int → String
  | none => "null"
  | some k => intStr k

/-- `json.dumps(data, sort_keys=True, separators=(',',':'))` up to and
including the `"exit_code":` key (keys in sorted order: action_id, args,
command, cwd, exit_code, risk_level, session_id, timestamp). -/
def canonicalPre (a : TerminalAction) : String :=
  "\x7b\"action_id\":" ++ jsonString a.action_id ++
  ",\"args\":" ++ jsonStringList a.args ++
  ",\"command\":" ++ jsonString a.command ++
  ",\"cwd\":" ++ jsonString a.cwd ++
  ",\"exit_code\":"

/-- The canonical serialization after the exit-code value. -/
def canonicalPost (a : TerminalAction) : String :=
  ",\"risk_level\":" ++ jsonString a.risk_level.value ++
  ",\"session_id\":" ++ jsonString a.session_id ++
  ",\"timestamp\":" ++ jsonString a.timestamp ++ "\x7d"

/-- The full canonical form hashed by `TerminalAction.compute_hash`
(note: `stdout_hash`/`stderr_hash` are not part of it). -/
def canonicalAction (a : TerminalAction) : String :=
  canonicalPre a ++ jsonOptInt a.exit_code ++ canonicalPost a

/-- `TerminalAction.compute_hash`. -/
def computeHash (a : TerminalAction) : String :=
  sha256hex (canonicalAction a)

/-! ## TerminalSession and Merkle root (`classifier.py`) -/

structure TerminalSession where
  session_id : String
  created_at : String
  project_root : String
  actions : List TerminalAction
  is_active : Bool
deriving DecidableEq, Repr

/-- `TerminalSession.add_action`: set the action's session id, append it,
return its audit hash. -/
def addAction (s : TerminalSession) (a : TerminalAction) : TerminalSession × String :=
  let a' := { a with session_id := s.session_id }
  ({ s with actions := s.actions ++ [a'] }, computeHash a')

/-- One pairing pass: adjacent pairs replaced by the hash of the
concatenated hex strings. -/
def merklePairs : List String → List String
  | a :: b :: rest => sha256hex (a ++ b) :: merklePairs rest
  | _ => []

/-- One iteration of the `while len(hashes) > 1` body: duplicate the last
element when the count is odd, then pair. -/
def merkleStep (hs : List String) : List String :=
  merklePairs (if hs.length % 2 = 1 then hs ++ [hs.getLastD ""] else hs)

/-- The while loop, with fuel; each iteration at least halves a list of
length ≥ 2, so fuel = initial length always suffices. -/
def merkleLoop : Nat → List String → List String
  | 0, hs => hs
  | f + 1, hs => if hs.length ≤ 1 then hs else merkleLoop f (merkleStep hs)

/-- `TerminalSession.compute_merkle_root`. -/
def computeMerkleRoot (s : TerminalSession) : String :=
  if s.actions.isEmpty then sha256hex "empty"
  else (merkleLoop s.actions.length (s.actions.map computeHash)).headD ""

/-! ## Write-Ahead Log (`session_manager.py`)

The WAL file is modelled as the list of entries it holds; wall-clock
identifiers (uuid, utcnow) are explicit parameters; a fallible `fsync`ed
file write is modelled by an outcome flag. -/

structure WALEntry where
  sequence : Nat
  action_id : String
  session_id : String
  timestamp : String
  command : String
  args : List String
  cwd : String
  risk_level : String
deriving DecidableEq, Repr

/-- The entry `WriteAheadLog.append` serializes for an action. -/
def walEntryOf (seq : Nat) (a : TerminalAction) : WALEntry :=
  { sequence := seq, action_id := a.action_id, session_id := a.session_id,
    timestamp := a.timestamp, command := a.command, args := a.args,
    cwd := a.cwd, risk_level := a.risk_level.value }

/-- WAL state: file content (as parsed entries) plus the in-memory
sequence counter. -/
structure WALState where
  entries : List WALEntry
  sequence : Nat
deriving DecidableEq, Repr

/-- `WriteAheadLog.append` on a successful write: the entry is appended
(and fsynced) and the sequence counter advances. -/
def walAppend (w : WALState) (a : TerminalAction) : WALState :=
  { entries := w.entries ++ [walEntryOf w.sequence a], sequence := w.sequence + 1 }

/-- `WriteAheadLog.truncate`: file reset to zero length, sequence reset. -/
def walTruncate (_ : WALState) : WALState :=
  { entries := [], sequence := 0 }

/-- The `TerminalAction` that `recover` rebuilds from one entry
(`none` when `RiskLevel(data["risk_level"])` would raise `ValueError`).
`exit_code`, `stdout_hash` and `stderr_hash` are not in the entry, so the
dataclass defaults `None`, `""`, `""` apply. -/
def actionOfWALEntry (e : WALEntry) : Option TerminalAction :=
  match riskOfString e.risk_level with
  | some risk =>
      some { action_id := e.action_id, session_id := e.session_id,
             timestamp := e.timestamp, command := e.command, args := e.args,
             cwd := e.cwd, risk_level := risk, exit_code := none,
             stdout_hash := "", stderr_hash := "" }
  | none => none

/-- One physical line of a WAL file, as `recover` sees it: whitespace-only
(skipped by the `strip` guard), not a well-formed serialized entry
(`json.loads` or the key lookups raise), or a well-formed entry. -/
inductive WALLine where
  | blank : String → WALLine
  | corrupt : String → WALLine
  | entry : WALEntry → WALLine

/-- `WriteAheadLog.recover`: the `for line in f` loop. There is no
exception handler around `json.loads`, so a corrupt line raises
(`Except.error`) instead of stopping at the last well-formed entry. -/
def walRecoverGo : List WALLine → List TerminalAction → Except String (List TerminalAction)
  | [], acc => .ok acc
  | .blank _ :: rest, acc => walRecoverGo rest acc
  | .corrupt _ :: _, _ => .error "json.JSONDecodeError"
  | .entry e :: rest, acc =>
      match actionOfWALEntry e with
      | some a => walRecoverGo rest (acc ++ [a])
      | none => .error "ValueError: invalid risk_level"

def walRecover (lines : List WALLine) : Except String (List TerminalAction) :=
  walRecoverGo lines []

/-! ## Session Manager (`session_manager.py`)

Python dict state becomes association lists keyed by session id;
`datetime` becomes an `Int` timeline (seconds). -/

/-- First-match lookup in an association list (Python dict `.get`). -/
def alookup {β : Type} : List (String × β) → String → Option β
  | [], _ => none
  | (k, v) :: rest, key => if k = key then some v else alookup rest key

/-- Dict update: replace in place if present, else append
(Python dict insertion-order semantics). -/
def dictSet {β : Type} : List (String × β) → String → β → List (String × β)
  | [], key, v => [(key, v)]
  | (k, w) :: rest, key, v =>
      if k = key then (key, v) :: rest else (k, w) :: dictSet rest key v

structure SMState where
  sessions : List (String × TerminalSession)
  wals : List (String × WALState)
  last_anchor : List (String × Int)
deriving Repr

/-- Python's first-16-hex-chars digest `hexdigest()[:16]` (empty string
input yields the empty digest per the `if stdout` guard). -/
def shortDigest (s : String) : String :=
  if s = "" then "" else ⟨(sha256hex s).data.take 16⟩

/-- The action `record_action` constructs (before `add_action` stamps the
session id; the dataclass default leaves `session_id = ""`). -/
def mkAction (action_id timestamp command : String) (args : List String)
    (cwd : String) (risk : RiskLevel) (exit_code : Option Int)
    (stdout stderr : String) : TerminalAction :=
  { action_id := action_id, session_id := "", timestamp := timestamp,
    command := command, args := args, cwd := cwd, risk_level := risk,
    exit_code := exit_code, stdout_hash := shortDigest stdout,
    stderr_hash := shortDigest stderr }

/-- Steps 2 of `record_action`: append to the in-memory session and
return the audit hash. -/
def commitAction (st : SMState) (sid : String) (session : TerminalSession)
    (action : TerminalAction) : SMState × Except String String :=
  let (s', h) := addAction session action
  ({ st with sessions := dictSet st.sessions sid s' }, .ok h)

/-- `SessionManager.record_action`. `walWriteOk` is the outcome of the
durable file write inside `WriteAheadLog.append`: when it is `false` the
raised I/O error propagates before `self.sequence += 1` and before
`add_action`, leaving the whole state as it was. -/
def recordAction (st : SMState) (walWriteOk : Bool) (sid : String)
    (command : String) (args : List String) (cwd : String) (risk : RiskLevel)
    (exit_code : Option Int) (stdout stderr : String)
    (action_id timestamp : String) : SMState × Except String String :=
  match alookup st.sessions sid with
  | none => (st, .error ("Session " ++ sid ++ " not found"))
  | some session =>
    let action := mkAction action_id timestamp command args cwd risk exit_code stdout stderr
    -- 1. write to WAL first (durability)
    match alookup st.wals sid with
    | some w =>
        if walWriteOk then
          commitAction { st with wals := dictSet st.wals sid (walAppend w action) }
            sid session action
        else (st, .error "IOError: WAL append failed")
    | none => commitAction st sid session action

/-- `ANCHOR_INTERVAL = timedelta(minutes=10)`, in seconds. -/
def ANCHOR_INTERVAL : Int := 600

/-- `datetime.min` on the seconds timeline (0001-01-01 relative to the
Unix epoch); only its being far in the past matters. -/
def datetimeMin : Int := -62135596800

/-- `SessionManager.anchor_session`. `hasCallback` models
`self.anchor_callback is not None`; `callbackOk` the callback outcome
(`false` = it raised, which the `except` clause turns into `return None`
before any truncation or timestamp update). -/
def anchorSession (st : SMState) (now : Int) (hasCallback callbackOk : Bool)
    (sid : String) (immediate : Bool) : SMState × Option String :=
  match alookup st.sessions sid with
  | none => (st, none)
  | some session =>
    let last := (alookup st.last_anchor sid).getD datetimeMin
    if ¬ immediate ∧ now - last < ANCHOR_INTERVAL then (st, none)
    else
      let root := computeMerkleRoot session
      if hasCallback ∧ ¬ callbackOk then (st, none)
      else
        let st1 :=
          match alookup st.wals sid with
          | some w => { st with wals := dictSet st.wals sid (walTruncate w) }
          | none => st
        ({ st1 with last_anchor := dictSet st1.last_anchor sid now }, some root)

/-! ## Environment scrubbing (`main.py::_execute_command`,
`pty_executor.py::PTYExecutor.start_session`)

Environments are association lists with dict semantics via `dictSet`. -/

def dangerousEnvKeys : List String :=
  ["LD_PRELOAD", "LD_LIBRARY_PATH", "DYLD_INSERT_LIBRARIES"]

/-- The overlay loop shared by both executors: denylisted keys are
skipped, everything else is set into `safe_env`. -/
def applyOverlay : List (String × String) → List (String × String) → List (String × String)
  | safe, [] => safe
  | safe, kv :: rest =>
      applyOverlay (if kv.1 ∈ dangerousEnvKeys then safe else dictSet safe kv.1 kv.2) rest

/-- `safe_env` in `_execute_command` (one-shot executor); this dict is
passed as the child's entire environment via `create_subprocess_exec`. -/
def oneShotChildEnv (hostPATH hostHOME : Option String)
    (overlay : List (String × String)) : List (String × String) :=
  applyOverlay
    [("PATH", hostPATH.getD "/usr/bin:/bin"), ("HOME", hostHOME.getD "/tmp"),
     ("LANG", "en_US.UTF-8"), ("TERM", "xterm-256color")] overlay

/-- `safe_env` in `PTYExecutor.start_session`. -/
def ptySafeEnv (hostPATH hostHOME : Option String) (sessionId : String)
    (overlay : List (String × String)) : List (String × String) :=
  applyOverlay
    [("PATH", hostPATH.getD "/usr/bin:/bin"), ("HOME", hostHOME.getD "/tmp"),
     ("LANG", "en_US.UTF-8"), ("TERM", "xterm-256color"),
     ("TALOS_SESSION_ID", sessionId)] overlay

/-- The child-side loop `for k, v in safe_env.items(): os.environ[k] = v`. -/
def installEnv : List (String × String) → List (String × String) → List (String × String)
  | env, [] => env
  | env, kv :: rest => installEnv (dictSet env kv.1 kv.2) rest

/-- The PTY child's environment: after `pty.fork` the child inherits the
parent's `os.environ` and the loop `os.environ[k] = v` merely updates it
before `os.execvp`; it does not replace it. -/
def ptyChildEnv (parentEnv : List (String × String)) (hostPATH hostHOME : Option String)
    (sessionId : String) (overlay : List (String × String)) : List (String × String) :=
  installEnv parentEnv (ptySafeEnv hostPATH hostHOME sessionId overlay)

/-! ## Claim theorems -/

/-- C2: whatever the manifest and paranoid flag, a blocklist match on the
full command string forces a blocked, HIGH_RISK result carrying the
blocklist reason and the matched pattern. -/
theorem classify_blocklist_precedence (manifest : Option PolicyManifest)
    (paranoid : Bool) (command : String) (args : List String)
    (h : (findFirstMatch COMMAND_BLOCKLIST (fullCommand command args)).isSome) :
    (classify manifest paranoid command args).is_blocked = true ∧
    (classify manifest paranoid command args).risk_level = RiskLevel.HIGH_RISK ∧
    (classify manifest paranoid command args).block_reason =
      some "Command matches blocklist pattern" ∧
    (classify manifest paranoid command args).matched_pattern =
      findFirstMatch COMMAND_BLOCKLIST (fullCommand command args) := by
  cases hm : findFirstMatch COMMAND_BLOCKLIST (fullCommand command args) with
  | none => rw [hm] at h; simp at h
  | some pat => simp [classify, hm]

/-- Witness for C2 at `classify("rm", ["-rf", "/"])`, with a manifest that
whitelists `rm` and paranoid mode on, neither of which matters. -/
theorem classify_blocklist_precedence_witness :
    (findFirstMatch COMMAND_BLOCKLIST (fullCommand "rm" ["-rf", "/"])).isSome = true ∧
    (classify (some ⟨"1.0", ["rm"], [], [], "sig"⟩) true "rm" ["-rf", "/"]).is_blocked = true ∧
    (classify (some ⟨"1.0", ["rm"], [], [], "sig"⟩) true "rm" ["-rf", "/"]).risk_level =
      RiskLevel.HIGH_RISK ∧
    (classify (some ⟨"1.0", ["rm"], [], [], "sig"⟩) true "rm" ["-rf", "/"]).block_reason =
      some "Command matches blocklist pattern" ∧
    (classify (some ⟨"1.0", ["rm"], [], [], "sig"⟩) true "rm" ["-rf", "/"]).matched_pattern =
      some "^rm\\s+-rf\\s+/" :=
  ⟨by decide,
   (classify_blocklist_precedence (some ⟨"1.0", ["rm"], [], [], "sig"⟩) true "rm" ["-rf", "/"]
      (by decide)).1,
   (classify_blocklist_precedence (some ⟨"1.0", ["rm"], [], [], "sig"⟩) true "rm" ["-rf", "/"]
      (by decide)).2.1,
   (classify_blocklist_precedence (some ⟨"1.0", ["rm"], [], [], "sig"⟩) true "rm" ["-rf", "/"]
      (by decide)).2.2.1,
   by decide⟩

/-- C7: with paranoid mode on and no blocklist match, classification is
HIGH_RISK and not blocked, bypassing manifest and default patterns. -/
theorem classify_paranoid_dominance (manifest : Option PolicyManifest)
    (command : String) (args : List String)
    (h : findFirstMatch COMMAND_BLOCKLIST (fullCommand command args) = none) :
    classify manifest true command args =
      ⟨command, args, RiskLevel.HIGH_RISK, false,
        some "Paranoid mode - Supervisor approval required", none⟩ := by
  simp [classify, h]

/-- Witness for C7 at `classify("ls", ["-la"])` with paranoid mode on and
a manifest whitelisting `ls`. -/
theorem classify_paranoid_dominance_witness :
    findFirstMatch COMMAND_BLOCKLIST (fullCommand "ls" ["-la"]) = none ∧
    classify (some ⟨"1.0", ["ls"], [], [], "sig"⟩) true "ls" ["-la"] =
      ⟨"ls", ["-la"], RiskLevel.HIGH_RISK, false,
        some "Paranoid mode - Supervisor approval required", none⟩ :=
  ⟨by decide,
   classify_paranoid_dominance (some ⟨"1.0", ["ls"], [], [], "sig"⟩) "ls" ["-la"] (by decide)⟩

/-- C8: with a manifest, paranoid off and no blocklist match, a command in
the safe set classifies READ for any args, and otherwise one in the write
set classifies WRITE, before any default pattern is consulted. -/
theorem classify_manifest_override (m : PolicyManifest) (command : String)
    (args : List String)
    (hb : findFirstMatch COMMAND_BLOCKLIST (fullCommand command args) = none) :
    (command ∈ m.safe_commands →
      classify (some m) false command args =
        ⟨command, args, RiskLevel.READ, false, none, none⟩) ∧
    (command ∉ m.safe_commands → command ∈ m.write_commands →
      classify (some m) false command args =
        ⟨command, args, RiskLevel.WRITE, false, none, none⟩) := by
  constructor
  · intro hs
    simp [classify, hb, hs]
  · intro hn hw
    simp [classify, hb, hn, hw]

/-- Witness for C8 with the manifest \x7bsafe:["custom_read"],
write:["custom_write"]\x7d from the spec's scenario 5. -/
theorem classify_manifest_override_witness :
    classify (some ⟨"1.0", ["custom_read"], ["custom_write"], [], "sig"⟩) false
      "custom_read" [] = ⟨"custom_read", [], RiskLevel.READ, false, none, none⟩ ∧
    classify (some ⟨"1.0", ["custom_read"], ["custom_write"], [], "sig"⟩) false
      "custom_write" [] = ⟨"custom_write", [], RiskLevel.WRITE, false, none, none⟩ :=
  ⟨(classify_manifest_override ⟨"1.0", ["custom_read"], ["custom_write"], [], "sig"⟩
      "custom_read" [] (by decide)).1 (by decide),
   (classify_manifest_override ⟨"1.0", ["custom_read"], ["custom_write"], [], "sig"⟩
      "custom_write" [] (by decide)).2 (by decide) (by decide)⟩

/-- C9: the fork bomb `:()\x7b :|:& \x7d;:` matches no blocklist pattern —
the unescaped `()` in the source's second pattern makes it an empty group,
so that pattern requires `:\x7b`, not `:()\x7b` — and the classifier
returns it unblocked (default HIGH_RISK), contradicting the blocklist's
own `# Fork bomb` intent. -/
theorem classify_forkbomb_not_blocked :
    findFirstMatch COMMAND_BLOCKLIST (fullCommand ":()\x7b" [":|:&", "\x7d;:"]) = none ∧
    classify none false ":()\x7b" [":|:&", "\x7d;:"] =
      ⟨":()\x7b", [":|:&", "\x7d;:"], RiskLevel.HIGH_RISK, false,
        some "Unknown command - defaulting to HIGH_RISK", none⟩ ∧
    reSearch (COMMAND_BLOCKLIST.get ⟨1, by decide⟩) ":\x7b :|:& \x7d;:".data = true := by
  refine ⟨by decide, by decide, by decide⟩

/-- C3: the Merkle root follows the specified scheme — SHA-256 of "empty"
for no actions; with one action, that action's hash; with two, the hash of
the two hex strings concatenated; with three, the odd count duplicates the
last hash before pairing. -/
theorem compute_merkle_root_shape :
    (∀ s : TerminalSession, s.actions = [] → computeMerkleRoot s = sha256hex "empty") ∧
    (∀ (s : TerminalSession) (a : TerminalAction), s.actions = [a] →
      computeMerkleRoot s = computeHash a) ∧
    (∀ (s : TerminalSession) (a b : TerminalAction), s.actions = [a, b] →
      computeMerkleRoot s = sha256hex (computeHash a ++ computeHash b)) ∧
    (∀ (s : TerminalSession) (a b c : TerminalAction), s.actions = [a, b, c] →
      computeMerkleRoot s =
        sha256hex (sha256hex (computeHash a ++ computeHash b) ++
                   sha256hex (computeHash c ++ computeHash c))) := by
  refine ⟨?_, ?_, ?_, ?_⟩
  · intro s h
    simp [computeMerkleRoot, h]
  · intro s a h
    simp [computeMerkleRoot, h, merkleLoop]
  · intro s a b h
    simp [computeMerkleRoot, h, merkleLoop, merkleStep, merklePairs]
  · intro s a b c h
    simp [computeMerkleRoot, h, merkleLoop, merkleStep, merklePairs, List.getLastD]

/-- Witness for C3: the two-action case instantiated on concrete actions. -/
theorem compute_merkle_root_shape_witness :
    computeMerkleRoot
      ⟨"s1", "2024-01-01T00:00:00", "/p",
        [⟨"a1", "s1", "2024-01-01T00:00:01", "ls", ["-la"], "/tmp", RiskLevel.READ,
           some 0, "", ""⟩,
         ⟨"a2", "s1", "2024-01-01T00:00:02", "cat", ["f"], "/tmp", RiskLevel.READ,
           some 0, "", ""⟩], true⟩ =
      sha256hex
        (computeHash ⟨"a1", "s1", "2024-01-01T00:00:01", "ls", ["-la"], "/tmp",
           RiskLevel.READ, some 0, "", ""⟩ ++
         computeHash ⟨"a2", "s1", "2024-01-01T00:00:02", "cat", ["f"], "/tmp",
           RiskLevel.READ, some 0, "", ""⟩) :=
  compute_merkle_root_shape.2.2.1 _ _ _ rfl

/-- Keys set by `dictSet` are found by `alookup`. -/
theorem alookup_dictSet_self {β : Type} (l : List (String × β)) (k : String) (v : β) :
    alookup (dictSet l k v) k = some v := by
  induction l with
  | nil => simp [dictSet, alookup]
  | cons kv rest ih =>
      by_cases h : kv.1 = k
      · simp [dictSet, h, alookup]
      · simp [dictSet, h, alookup, ih]

/-- C1: in `record_action` the WAL append strictly precedes the in-memory
append — on WAL I/O failure the error propagates and the whole manager
state (hence the session's action list) is unchanged, while on success
both the WAL and the session list carry the new action. -/
theorem record_action_wal_before_memory (st : SMState)
    (sid command cwd stdout stderr action_id timestamp : String)
    (args : List String) (risk : RiskLevel) (exit_code : Option Int)
    (session : TerminalSession) (w : WALState)
    (hs : alookup st.sessions sid = some session)
    (hw : alookup st.wals sid = some w) :
    (recordAction st false sid command args cwd risk exit_code stdout stderr
        action_id timestamp =
      (st, Except.error "IOError: WAL append failed")) ∧
    (alookup (recordAction st true sid command args cwd risk exit_code stdout stderr
        action_id timestamp).1.wals sid =
      some (walAppend w
        (mkAction action_id timestamp command args cwd risk exit_code stdout stderr))) ∧
    (alookup (recordAction st true sid command args cwd risk exit_code stdout stderr
        action_id timestamp).1.sessions sid =
      some { session with actions := session.actions ++
        [{ mkAction action_id timestamp command args cwd risk exit_code stdout stderr
             with session_id := session.session_id }] }) ∧
    ((recordAction st true sid command args cwd risk exit_code stdout stderr
        action_id timestamp).2 =
      Except.ok (computeHash
        { mkAction action_id timestamp command args cwd risk exit_code stdout stderr
            with session_id := session.session_id })) := by
  refine ⟨?_, ?_, ?_, ?_⟩
  · simp [recordAction, hs, hw]
  · simp [recordAction, hs, hw, commitAction, alookup_dictSet_self]
  · simp [recordAction, hs, hw, commitAction, addAction, alookup_dictSet_self]
  · simp [recordAction, hs, hw, commitAction, addAction]

/-- Witness for C1 on a one-session manager state. -/
theorem record_action_wal_before_memory_witness :
    (recordAction
        ⟨[("s1", ⟨"s1", "2024-01-01T00:00:00", "/p", [], true⟩)], [("s1", ⟨[], 0⟩)], []⟩
        false "s1" "ls" ["-la"] "/tmp" RiskLevel.READ (some 0) "out" ""
        "a1" "2024-01-01T00:00:01" =
      (⟨[("s1", ⟨"s1", "2024-01-01T00:00:00", "/p", [], true⟩)], [("s1", ⟨[], 0⟩)], []⟩,
        Except.error "IOError: WAL append failed")) ∧
    (alookup (recordAction
        ⟨[("s1", ⟨"s1", "2024-01-01T00:00:00", "/p", [], true⟩)], [("s1", ⟨[], 0⟩)], []⟩
        true "s1" "ls" ["-la"] "/tmp" RiskLevel.READ (some 0) "out" ""
        "a1" "2024-01-01T00:00:01").1.wals "s1" =
      some (walAppend ⟨[], 0⟩
        (mkAction "a1" "2024-01-01T00:00:01" "ls" ["-la"] "/tmp" RiskLevel.READ
          (some 0) "out" ""))) :=
  ⟨(record_action_wal_before_memory
      ⟨[("s1", ⟨"s1", "2024-01-01T00:00:00", "/p", [], true⟩)], [("s1", ⟨[], 0⟩)], []⟩
      "s1" "ls" "/tmp" "out" "" "a1" "2024-01-01T00:00:01"
      ["-la"] RiskLevel.READ (some 0) ⟨"s1", "2024-01-01T00:00:00", "/p", [], true⟩
      ⟨[], 0⟩ rfl rfl).1,
   (record_action_wal_before_memory
      ⟨[("s1", ⟨"s1", "2024-01-01T00:00:00", "/p", [], true⟩)], [("s1", ⟨[], 0⟩)], []⟩
      "s1" "ls" "/tmp" "out" "" "a1" "2024-01-01T00:00:01"
      ["-la"] RiskLevel.READ (some 0) ⟨"s1", "2024-01-01T00:00:00", "/p", [], true⟩
      ⟨[], 0⟩ rfl rfl).2.1⟩

/-- C5: when the anchor callback raises, `anchor_session` returns with the
entire manager state untouched — WAL contents, sequence counter and
last-anchor time all unchanged — and a later due attempt re-anchors the
same session's Merkle root. -/
theorem anchor_session_callback_failure (st : SMState) (now : Int) (sid : String)
    (session : TerminalSession)
    (hs : alookup st.sessions sid = some session) :
    (∀ immediate : Bool, anchorSession st now true false sid immediate = (st, none)) ∧
    (∀ now2 : Int,
      now2 - (alookup st.last_anchor sid).getD datetimeMin ≥ ANCHOR_INTERVAL →
      (anchorSession st now2 true true sid false).2 = some (computeMerkleRoot session)) := by
  constructor
  · intro immediate
    unfold anchorSession
    rw [hs]
    by_cases hdue : ¬ immediate = true ∧ now - (alookup st.last_anchor sid).getD datetimeMin < ANCHOR_INTERVAL
    · simp [hdue]
    · simp [hdue]
  · intro now2 hdue
    unfold anchorSession
    rw [hs]
    have : ¬ (¬ false = true ∧ now2 - (alookup st.last_anchor sid).getD datetimeMin < ANCHOR_INTERVAL) := by
      intro hc
      omega
    simp only [this, if_false]
    simp

/-- Witness for C5 on a one-session state whose last anchor is stale. -/
theorem anchor_session_callback_failure_witness :
    (anchorSession
        ⟨[("s1", ⟨"s1", "2024-01-01T00:00:00", "/p", [], true⟩)],
          [("s1", ⟨[], 0⟩)], [("s1", 0)]⟩
        1000 true false "s1" true =
      (⟨[("s1", ⟨"s1", "2024-01-01T00:00:00", "/p", [], true⟩)],
          [("s1", ⟨[], 0⟩)], [("s1", 0)]⟩, none)) ∧
    ((anchorSession
        ⟨[("s1", ⟨"s1", "2024-01-01T00:00:00", "/p", [], true⟩)],
          [("s1", ⟨[], 0⟩)], [("s1", 0)]⟩
        1000 true true "s1" false).2 =
      some (computeMerkleRoot ⟨"s1", "2024-01-01T00:00:00", "/p", [], true⟩)) :=
  ⟨(anchor_session_callback_failure
      ⟨[("s1", ⟨"s1", "2024-01-01T00:00:00", "/p", [], true⟩)],
        [("s1", ⟨[], 0⟩)], [("s1", 0)]⟩
      1000 "s1" ⟨"s1", "2024-01-01T00:00:00", "/p", [], true⟩ rfl).1 true,
   (anchor_session_callback_failure
      ⟨[("s1", ⟨"s1", "2024-01-01T00:00:00", "/p", [], true⟩)],
        [("s1", ⟨[], 0⟩)], [("s1", 0)]⟩
      1000 "s1" ⟨"s1", "2024-01-01T00:00:00", "/p", [], true⟩ rfl).2 1000 (by decide)⟩

/-- C4: `recover` raises on a corrupt trailing line instead of returning
the actions parsed before it. The first conjunct shows the error on a WAL
whose second line is a torn write; the second shows the same WAL without
that line yields the one recovered action the claim expects. -/
theorem wal_recover_corrupt_tail_raises :
    walRecover
      [WALLine.entry ⟨0, "a1", "s1", "2024-01-01T00:00:00", "ls", ["-la"], "/tmp", "READ"⟩,
       WALLine.corrupt "\x7b\"sequence\": 1, \"action"] =
      Except.error "json.JSONDecodeError" ∧
    walRecover
      [WALLine.entry ⟨0, "a1", "s1", "2024-01-01T00:00:00", "ls", ["-la"], "/tmp", "READ"⟩] =
      Except.ok
        [⟨"a1", "s1", "2024-01-01T00:00:00", "ls", ["-la"], "/tmp", RiskLevel.READ,
          none, "", ""⟩] :=
  ⟨rfl, rfl⟩

/-- Keys other than the one being set are unaffected by `dictSet`. -/
theorem alookup_dictSet_ne {β : Type} (l : List (String × β)) (k1 k : String) (v : β)
    (h : k1 ≠ k) : alookup (dictSet l k1 v) k = alookup l k := by
  induction l with
  | nil => simp [dictSet, alookup, h]
  | cons kv rest ih =>
      by_cases hk : kv.1 = k1
      · simp [dictSet, hk, alookup, h]
      · simp [dictSet, hk, alookup, ih]

/-- Denylisted keys are never written by the overlay loop: looking one up
after `applyOverlay` is the same as looking it up in the base dict. -/
theorem alookup_applyOverlay_dangerous (overlay safe : List (String × String))
    (k : String) (hk : k ∈ dangerousEnvKeys) :
    alookup (applyOverlay safe overlay) k = alookup safe k := by
  induction overlay generalizing safe with
  | nil => rfl
  | cons kv rest ih =>
      simp only [applyOverlay]
      by_cases hd : kv.1 ∈ dangerousEnvKeys
      · rw [if_pos hd]
        exact ih safe
      · rw [if_neg hd, ih (dictSet safe kv.1 kv.2),
            alookup_dictSet_ne _ _ _ _ fun he => hd (by rw [he]; exact hk)]

/-- Installing items whose keys all differ from `k` cannot change what
`k` looks up to. -/
theorem alookup_installEnv_ne (items env : List (String × String)) (k : String)
    (h : ∀ kv ∈ items, kv.1 ≠ k) :
    alookup (installEnv env items) k = alookup env k := by
  induction items generalizing env with
  | nil => rfl
  | cons kv rest ih =>
      simp only [installEnv]
      rw [ih (dictSet env kv.1 kv.2) fun x hx => h x (List.mem_cons_of_mem _ hx),
          alookup_dictSet_ne _ _ _ _ (h kv (List.mem_cons_self _ _))]

/-- Every key present after `dictSet` is the set key or was present before. -/
theorem mem_dictSet_keys {β : Type} (l : List (String × β)) (k1 : String) (v : β)
    (kv : String × β) (h : kv ∈ dictSet l k1 v) : kv.1 = k1 ∨ kv ∈ l := by
  induction l with
  | nil =>
      simp only [dictSet, List.mem_singleton] at h
      exact Or.inl (by rw [h])
  | cons kv0 rest ih =>
      by_cases hk : kv0.1 = k1
      · simp only [dictSet, hk, if_true, List.mem_cons] at h
        rcases h with h | h
        · exact Or.inl (by rw [h])
        · exact Or.inr (List.mem_cons_of_mem _ h)
      · simp only [dictSet, hk, if_false, List.mem_cons] at h
        rcases h with h | h
        · exact Or.inr (h ▸ List.mem_cons_self _ _)
        · rcases ih h with h1 | h1
          · exact Or.inl h1
          · exact Or.inr (List.mem_cons_of_mem _ h1)

/-- The overlay loop never introduces a denylisted key. -/
theorem applyOverlay_no_dangerous_key (overlay safe : List (String × String))
    (k : String) (hk : k ∈ dangerousEnvKeys)
    (hsafe : ∀ kv ∈ safe, kv.1 ≠ k) :
    ∀ kv ∈ applyOverlay safe overlay, kv.1 ≠ k := by
  induction overlay generalizing safe with
  | nil => exact hsafe
  | cons kv0 rest ih =>
      simp only [applyOverlay]
      by_cases hd : kv0.1 ∈ dangerousEnvKeys
      · rw [if_pos hd]
        exact ih safe hsafe
      · rw [if_neg hd]
        refine ih (dictSet safe kv0.1 kv0.2) ?_
        intro kv hkv
        rcases mem_dictSet_keys safe kv0.1 kv0.2 kv hkv with h1 | h1
        · rw [h1]
          exact fun he => hd (he ▸ hk)
        · exact hsafe kv h1

/-- C6 (amended): overlay keys in the denylist are silently dropped by
both executors; the one-shot child environment contains no denylisted key
at all, while the PTY child environment — the adapter's inherited
environment updated in place — maps a denylisted key to exactly what the
parent environment already had (in particular, none if the parent had
none). -/
theorem env_scrubbing (k : String) (hk : k ∈ dangerousEnvKeys) :
    (∀ (hostPATH hostHOME : Option String) (overlay : List (String × String)),
      alookup (oneShotChildEnv hostPATH hostHOME overlay) k = none) ∧
    (∀ (parentEnv : List (String × String)) (hostPATH hostHOME : Option String)
        (sessionId : String) (overlay : List (String × String)),
      alookup (ptyChildEnv parentEnv hostPATH hostHOME sessionId overlay) k =
        alookup parentEnv k) := by
  have hmem : k = "LD_PRELOAD" ∨ k = "LD_LIBRARY_PATH" ∨ k = "DYLD_INSERT_LIBRARIES" := by
    simpa [dangerousEnvKeys] using hk
  have h1 : ¬ "PATH" = k := by rcases hmem with h | h | h <;> rw [h] <;> decide
  have h2 : ¬ "HOME" = k := by rcases hmem with h | h | h <;> rw [h] <;> decide
  have h3 : ¬ "LANG" = k := by rcases hmem with h | h | h <;> rw [h] <;> decide
  have h4 : ¬ "TERM" = k := by rcases hmem with h | h | h <;> rw [h] <;> decide
  have h5 : ¬ "TALOS_SESSION_ID" = k := by rcases hmem with h | h | h <;> rw [h] <;> decide
  constructor
  · intro hostPATH hostHOME overlay
    rw [oneShotChildEnv, alookup_applyOverlay_dangerous _ _ _ hk]
    simp [alookup, h1, h2, h3, h4]
  · intro parentEnv hostPATH hostHOME sessionId overlay
    refine alookup_installEnv_ne _ _ _ ?_
    refine applyOverlay_no_dangerous_key _ _ _ hk ?_
    intro kv hkv
    simp only [List.mem_cons, List.not_mem_nil, or_false] at hkv
    rcases hkv with h | h | h | h | h <;> rw [h] <;> intro he <;>
      first
        | exact h1 he
        | exact h2 he
        | exact h3 he
        | exact h4 he
        | exact h5 he

/-- Witness for C6 (amended): a denylisted overlay key is dropped by the
one-shot executor, and the PTY child keeps exactly the parent's value. -/
theorem env_scrubbing_witness :
    alookup (oneShotChildEnv none none [("LD_PRELOAD", "x.so"), ("FOO", "bar")])
      "LD_PRELOAD" = none ∧
    alookup (ptyChildEnv [("HOSTVAR", "1")] none none "sid0"
      [("LD_LIBRARY_PATH", "/evil")]) "LD_LIBRARY_PATH" =
      alookup [("HOSTVAR", "1")] "LD_LIBRARY_PATH" :=
  ⟨(env_scrubbing "LD_PRELOAD" (by decide)).1 none none [("LD_PRELOAD", "x.so"), ("FOO", "bar")],
   (env_scrubbing "LD_LIBRARY_PATH" (by decide)).2 [("HOSTVAR", "1")] none none "sid0"
     [("LD_LIBRARY_PATH", "/evil")]⟩

/-- C6 counterexample: with the adapter's own environment already holding
`LD_PRELOAD`, the PTY child environment still holds it, so the claim that
the resulting child environment contains none of the denylisted keys fails. -/
theorem pty_env_dangerous_key_survives :
    ¬ alookup (ptyChildEnv [("LD_PRELOAD", "evil.so")] none none "sid0"
        [("LD_PRELOAD", "x.so")]) "LD_PRELOAD" = none := by
  decide

/-- Decimal digit characters are never the letter `n`. -/
theorem digitChar_ne_n (n : Nat) : digitChar n ≠ 'n' := by
  unfold digitChar
  repeat' split
  all_goals decide

/-- Every character that `natStrGo` prepends is a decimal digit, so the
letter `n` can only come from the starting accumulator. -/
theorem natStrGo_ne_n (fuel : Nat) :
    ∀ (n : Nat) (acc : List Char), (∀ c ∈ acc, c ≠ 'n') →
    ∀ c ∈ natStrGo fuel n acc, c ≠ 'n' := by
  induction fuel with
  | zero =>
      intro n acc hacc c hc
      rcases List.mem_cons.mp hc with h | h
      · rw [h]
        exact digitChar_ne_n n
      · exact hacc c h
  | succ fuel ih =>
      intro n acc hacc c hc
      rw [natStrGo] at hc
      split at hc
      · rcases List.mem_cons.mp hc with h | h
        · rw [h]
          exact digitChar_ne_n n
        · exact hacc c h
      · refine ih (n / 10) _ ?_ c hc
        intro c2 hc2
        rcases List.mem_cons.mp hc2 with h2 | h2
        · rw [h2]
          exact digitChar_ne_n (n % 10)
        · exact hacc c2 h2

/-- The JSON rendering of an integer is never the string `null`. -/
theorem intStr_ne_null (k : Int) : intStr k ≠ "null" := by
  intro h
  have hd : (intStr k).data = ['n', 'u', 'l', 'l'] := by rw [h]
  cases k with
  | ofNat m =>
      have hn : 'n' ∈ (intStr (Int.ofNat m)).data := by
        rw [hd]
        exact List.mem_cons_self _ _
      exact natStrGo_ne_n m m [] (by intro c hc; cases hc) 'n' hn rfl
  | negSucc m =>
      have : ('-' :: (natStr (m + 1)).data) = ['n', 'u', 'l', 'l'] := by
        rw [← hd]
        show ('-' :: (natStr (m + 1)).data) = (("-" : String) ++ natStr (m + 1)).data
        rfl
      injection this with h1 _
      cases h1

/-- `recover` rebuilds an action with `exit_code = None` and empty
digests (they are not persisted in the entry). -/
theorem actionOfWALEntry_defaults (e : WALEntry) (a : TerminalAction)
    (h : actionOfWALEntry e = some a) :
    a.exit_code = none ∧ a.stdout_hash = "" ∧ a.stderr_hash = "" := by
  unfold actionOfWALEntry at h
  split at h
  · injection h with h
    rw [← h]
    exact ⟨rfl, rfl, rfl⟩
  · cases h

/-- Every action in a successful recovery result satisfies the WAL-loss
property, provided the accumulator already does. -/
theorem walRecoverGo_defaults (lines : List WALLine) :
    ∀ acc acts : List TerminalAction,
    (∀ a ∈ acc, a.exit_code = none ∧ a.stdout_hash = "" ∧ a.stderr_hash = "") →
    walRecoverGo lines acc = Except.ok acts →
    ∀ a ∈ acts, a.exit_code = none ∧ a.stdout_hash = "" ∧ a.stderr_hash = "" := by
  induction lines with
  | nil =>
      intro acc acts hacc h
      simp only [walRecoverGo, Except.ok.injEq] at h
      rw [← h]
      exact hacc
  | cons l rest ih =>
      intro acc acts hacc h
      cases l with
      | blank s => exact ih acc acts hacc h
      | corrupt s => simp [walRecoverGo] at h
      | entry e =>
          cases hae : actionOfWALEntry e with
          | none => simp [walRecoverGo, hae] at h
          | some a0 =>
              simp only [walRecoverGo, hae] at h
              refine ih (acc ++ [a0]) acts ?_ h
              intro a ha
              rcases List.mem_append.mp ha with h1 | h1
              · exact hacc a h1
              · rw [List.mem_singleton.mp h1]
                exact actionOfWALEntry_defaults e a0 hae

/-- The transformation the WAL round-trip applies to an action. -/
def walRoundTrip (a : TerminalAction) : TerminalAction :=
  { a with exit_code := none, stdout_hash := "", stderr_hash := "" }

/-- C10: WAL entries persist neither exit code nor output digests, so the
WAL round-trip of any action zeroes them out; every recovered action has
`exit_code = None` and empty digests; whenever the original exit code was
non-null the canonical hashed serializations differ; and at a concrete
recorded action the audit hash and the singleton-session Merkle root both
change across recovery. -/
theorem wal_recovery_drops_exit_code :
    (∀ (seq : Nat) (a : TerminalAction),
      actionOfWALEntry (walEntryOf seq a) = some (walRoundTrip a)) ∧
    (∀ (lines : List WALLine) (acts : List TerminalAction),
      walRecover lines = Except.ok acts →
      ∀ a ∈ acts, a.exit_code = none ∧ a.stdout_hash = "" ∧ a.stderr_hash = "") ∧
    (∀ (a : TerminalAction) (k : Int), a.exit_code = some k →
      canonicalAction (walRoundTrip a) ≠ canonicalAction a) ∧
    (computeHash (walRoundTrip
        ⟨"a1", "s1", "2024-01-01T00:00:00", "make", ["test"], "/tmp",
          RiskLevel.WRITE, some 2, "abcd", ""⟩) ≠
      computeHash
        ⟨"a1", "s1", "2024-01-01T00:00:00", "make", ["test"], "/tmp",
          RiskLevel.WRITE, some 2, "abcd", ""⟩) ∧
    (computeMerkleRoot
        ⟨"s1", "2024-01-01T00:00:00", "/p",
          [walRoundTrip ⟨"a1", "s1", "2024-01-01T00:00:00", "make", ["test"], "/tmp",
            RiskLevel.WRITE, some 2, "abcd", ""⟩], true⟩ ≠
      computeMerkleRoot
        ⟨"s1", "2024-01-01T00:00:00", "/p",
          [⟨"a1", "s1", "2024-01-01T00:00:00", "make", ["test"], "/tmp",
            RiskLevel.WRITE, some 2, "abcd", ""⟩], true⟩) := by
  refine ⟨?_, ?_, ?_, by decide, by decide⟩
  · intro seq a
    cases a with
    | mk action_id session_id timestamp command args cwd risk_level exit_code stdout_hash stderr_hash =>
        cases risk_level <;> rfl
  · intro lines acts h
    exact walRecoverGo_defaults lines [] acts (by intro a ha; cases ha) h
  · intro a k hk heq
    have hpre : canonicalPre (walRoundTrip a) = canonicalPre a := rfl
    have hpost : canonicalPost (walRoundTrip a) = canonicalPost a := rfl
    have hnone : (walRoundTrip a).exit_code = none := rfl
    unfold canonicalAction at heq
    rw [hpre, hpost, hnone, hk] at heq
    have hd := congrArg String.data heq
    have hassoc : ∀ x y z : String, (x ++ y ++ z).data = (x.data ++ y.data) ++ z.data := by
      intro x y z
      rfl
    rw [hassoc, hassoc] at hd
    have h2 := List.append_cancel_right hd
    have h3 := List.append_cancel_left h2
    exact intStr_ne_null k (congrArg String.mk h3.symm)

/-- Witness for C10: the canonical-form inequality instantiated on a
recorded action with exit code 2, and the recovery-defaults clause
instantiated on a one-entry WAL. -/
theorem wal_recovery_drops_exit_code_witness :
    (canonicalAction (walRoundTrip
        ⟨"a1", "s1", "2024-01-01T00:00:00", "make", ["test"], "/tmp",
          RiskLevel.WRITE, some 2, "abcd", ""⟩) ≠
      canonicalAction
        ⟨"a1", "s1", "2024-01-01T00:00:00", "make", ["test"], "/tmp",
          RiskLevel.WRITE, some 2, "abcd", ""⟩) ∧
    ((⟨"a1", "s1", "2024-01-01T00:00:00", "make", ["test"], "/tmp",
        RiskLevel.WRITE, none, "", ""⟩ : TerminalAction).exit_code = none ∧
      (⟨"a1", "s1", "2024-01-01T00:00:00", "make", ["test"], "/tmp",
        RiskLevel.WRITE, none, "", ""⟩ : TerminalAction).stdout_hash = "" ∧
      (⟨"a1", "s1", "2024-01-01T00:00:00", "make", ["test"], "/tmp",
        RiskLevel.WRITE, none, "", ""⟩ : TerminalAction).stderr_hash = "") :=
  ⟨wal_recovery_drops_exit_code.2.2.1
      ⟨"a1", "s1", "2024-01-01T00:00:00", "make", ["test"], "/tmp",
        RiskLevel.WRITE, some 2, "abcd", ""⟩ 2 rfl,
   wal_recovery_drops_exit_code.2.1
      [WALLine.entry ⟨0, "a1", "s1", "2024-01-01T00:00:00", "make", ["test"], "/tmp", "WRITE"⟩]
      [⟨"a1", "s1", "2024-01-01T00:00:00", "make", ["test"], "/tmp",
        RiskLevel.WRITE, none, "", ""⟩] rfl _ (List.mem_singleton.mpr rfl)⟩

end TerminalAdapter
